import Mathlib

set_option linter.unusedVariables false

/-!
Verification of the note-auto-poster posting pipeline
(src/backend/src/improved_note_poster.py) against its specification.

Shallow embedding conventions:
  * `requests.Response` is modelled by `Response` (status code plus the
    JSON document that `response.json()` would yield, `none` meaning the
    body is malformed JSON, i.e. `json.JSONDecodeError`).
  * `requests.Response.__bool__` returns `self.ok`, i.e.
    `status_code < 400`; the source's `if not response:` tests rely on
    this, so truthiness is modelled by `Response.truthy`.
  * Python exceptions are modelled with `Except PyExn`; a `try/except`
    becomes a `match` on the `Except` value that catches exactly the
    listed exception classes.
  * The environment `Env` supplies the outcomes of the impure
    collaborators: the authenticator (`NoteAuthenticator.get_cookies`),
    the markdown renderer (`MarkdownProcessor.to_html`, which may raise
    anything except `ImportError`), the network (one `Outcome` per
    (request, attempt number)), and the file system probes used by
    `upload_image`.
  * Every operation additionally returns the list of observable `Event`s
    it performed (network attempts, waits, stage invocations, the
    finalize payload), so that "is never invoked" / "call count" claims
    are statements about traces.
-/

namespace NotePoster

/-- Configuration constants from `class Config`. -/
def Config.TIMEOUT : Nat := 10

def Config.WAIT_TIME : Nat := 2

def Config.MAX_RETRIES : Nat := 3

def Config.NOTE_API_BASE : String := "https://note.com/api/v1"

/-- Python exception classes relevant to the embedded code. -/
inductive PyExn where
  | keyError
  | jsonDecodeError
  | typeError
  | ioError
  | otherError (msg : String)
deriving DecidableEq

/-- JSON values as far as the source inspects them: string leaves and
objects.  `result['data']['id']` style indexing is `Json.index`. -/
inductive Json where
  | jstr : String → Json
  | jobj : List (String × Json) → Json

/-- Python `d[k]`: a missing key raises `KeyError`; indexing a string
with a string raises `TypeError`. -/
def Json.index : Json → String → Except PyExn Json
  | .jobj fields, k =>
    match fields.lookup k with
    | some v => Except.ok v
    | none => Except.error PyExn.keyError
  | .jstr _, _ => Except.error PyExn.typeError

/-- Python truthiness of a JSON value (`""` and `{}` are falsy). -/
def Json.truthy : Json → Bool
  | .jstr s => s ≠ ""
  | .jobj fields => !fields.isEmpty

/-- Python `str()` of a value, used only to interpolate `article_id`
into the PUT URL.  The API yields scalar ids, so only the string leaf
rendering matters; an object id is rendered opaquely. -/
def Json.pyStr : Json → String
  | .jstr s => s
  | .jobj _ => "dict"

/-- Truthiness of an `Optional` value holding a JSON value. -/
def optTruthy : Option Json → Bool
  | none => false
  | some j => j.truthy

/-- A credential bundle: the cookie dictionary harvested by the
authenticator.  Python `not cookies` is `cookies = []`. -/
abbrev Cookies := List (String × String)

/-- An HTTP response as the source observes it. -/
structure Response where
  status_code : Nat
  /-- The value `response.json()` would return, `none` when the body is
  malformed JSON (so that call raises `json.JSONDecodeError`). -/
  json : Option Json

/-- `requests.Response.__bool__` returns `self.ok`, which is
`status_code < 400`. -/
def Response.truthy (r : Response) : Bool := r.status_code < 400

/-- `response.json()`. -/
def Response.jsonE (r : Response) : Except PyExn Json :=
  match r.json with
  | some j => Except.ok j
  | none => Except.error PyExn.jsonDecodeError

/-- Outcome of one `self.session.request(...)` call: either it raises a
`requests.exceptions.RequestException` or it yields a response. -/
inductive Outcome where
  | exn : Outcome
  | resp : Response → Outcome

/-- The (method, url) pair identifying one request; the source never
changes these between retry attempts. -/
structure Request where
  method : String
  url : String

/-- The `data` dictionary sent by `update_article_draft`:
`{'body': html, 'name': title, 'status': 'draft'}` plus
`eyecatch_image_key` only when `image_key` is truthy. -/
structure FinalizePayload where
  body : String
  name : String
  status : String
  eyecatch_image_key : Option Json

/-- Observable events of one pipeline run. -/
inductive Event where
  /-- one `session.request` call of `_make_request` -/
  | netAttempt : Request → Event
  /-- one `time.sleep(seconds)` inside `_make_request` -/
  | netWait : Nat → Event
  /-- `NoteAuthenticator.get_cookies` was invoked -/
  | callAuth : Event
  /-- `NotePoster.create_article` was invoked -/
  | callCreate : Event
  /-- `NotePoster.upload_image` was invoked on this path -/
  | callUpload : String → Event
  /-- `NotePoster.update_article_draft` was invoked -/
  | callUpdate : Event
  /-- the finalize payload `data` built inside `update_article_draft` -/
  | payloadFinalize : FinalizePayload → Event

/-- The retry loop body of `NotePoster._make_request`.
`attempt` is the loop variable of `for attempt in range(Config.MAX_RETRIES)`
and `remaining = Config.MAX_RETRIES - attempt` drives the recursion.
`net` gives the outcome of `self.session.request(...)` on each attempt.
Returns the function result together with the trace of attempts and
`time.sleep` waits. -/
def makeRequestFrom (net : Nat → Outcome) (req : Request) :
    Nat → Nat → Option Response × List Event
  | _, 0 => (none, [])
  | attempt, remaining + 1 =>
    match net attempt with
    | Outcome.resp response =>
      if response.status_code = 429 then
        -- rate limited: wait WAIT_TIME * (attempt + 1) and continue
        ((makeRequestFrom net req (attempt + 1) remaining).1,
         Event.netAttempt req :: Event.netWait (Config.WAIT_TIME * (attempt + 1)) ::
           (makeRequestFrom net req (attempt + 1) remaining).2)
      else
        (some response, [Event.netAttempt req])
    | Outcome.exn =>
      -- requests.exceptions.RequestException: caught; sleep WAIT_TIME
      -- unless this was the last attempt
      ((makeRequestFrom net req (attempt + 1) remaining).1,
       Event.netAttempt req ::
         ((if attempt < Config.MAX_RETRIES - 1 then [Event.netWait Config.WAIT_TIME] else []) ++
           (makeRequestFrom net req (attempt + 1) remaining).2))

/-- `NotePoster._make_request`: retrying HTTP request; returns `None`
(and never raises) once the attempt budget is exhausted. -/
def make_request (net : Nat → Outcome) (req : Request) :
    Option Response × List Event :=
  makeRequestFrom net req 0 Config.MAX_RETRIES

/-- Every event emitted by the executor is a network attempt with the
unchanged request, or a wait. -/
theorem makeRequestFrom_events (net : Nat → Outcome) (req : Request) :
    ∀ remaining attempt e, e ∈ (makeRequestFrom net req attempt remaining).2 →
      e = Event.netAttempt req ∨ ∃ n, e = Event.netWait n := by
  intro remaining
  induction remaining with
  | zero => intro attempt e he; simp [makeRequestFrom] at he
  | succ k ih =>
    intro attempt e he
    unfold makeRequestFrom at he
    cases hnet : net attempt with
    | resp response =>
      rw [hnet] at he
      by_cases h429 : response.status_code = 429
      · simp only [h429, if_pos, List.mem_cons] at he
        rcases he with rfl | rfl | he
        · exact Or.inl rfl
        · exact Or.inr ⟨Config.WAIT_TIME * (attempt + 1), rfl⟩
        · exact ih (attempt + 1) e he
      · simp only [h429, if_false, List.mem_cons, List.not_mem_nil, or_false] at he
        exact Or.inl he
    | exn =>
      rw [hnet] at he
      by_cases hlast : attempt < Config.MAX_RETRIES - 1
      · simp only [hlast, if_pos, List.singleton_append, List.mem_cons] at he
        rcases he with rfl | rfl | he
        · exact Or.inl rfl
        · exact Or.inr ⟨Config.WAIT_TIME, rfl⟩
        · exact ih (attempt + 1) e he
      · simp only [hlast, if_false, List.nil_append, List.mem_cons] at he
        rcases he with rfl | he
        · exact Or.inl rfl
        · exact ih (attempt + 1) e he

/-- Is this event a `session.request` network attempt? -/
def Event.isNetAttempt : Event → Bool
  | .netAttempt _ => true
  | _ => false

/-- Is this event an invocation of `create_article`? -/
def Event.isCallCreate : Event → Bool
  | .callCreate => true
  | _ => false

/-- Is this event an invocation of `upload_image`? -/
def Event.isCallUpload : Event → Bool
  | .callUpload _ => true
  | _ => false

/-- Is this event an invocation of `update_article_draft`? -/
def Event.isCallUpdate : Event → Bool
  | .callUpdate => true
  | _ => false

/-- A demonstration network function: every attempt is rate limited. -/
def net429 : Nat → Outcome := fun _ => Outcome.resp ⟨429, none⟩

/-- A demonstration network function: every attempt raises a
`RequestException` (connection error / DNS failure / timeout). -/
def netFault : Nat → Outcome := fun _ => Outcome.exn

/-- A demonstration request. -/
def reqDemo : Request := ⟨"GET", "https://example.com"⟩

/-- C3: if the remote answers HTTP 429 on every attempt, `_make_request`
performs exactly 3 attempts (the default `Config.MAX_RETRIES`), sleeps
`WAIT_TIME * attempt_number` — 2 s, 4 s, 6 s, strictly increasing — after
each 429, issues every attempt with the unchanged request, and returns
`None` after the third attempt. -/
theorem C3_rate_limited_three_attempts (net : Nat → Outcome) (req : Request)
    (h : ∀ i, i < Config.MAX_RETRIES → ∃ r, net i = Outcome.resp r ∧ r.status_code = 429) :
    make_request net req =
      (none,
       [Event.netAttempt req, Event.netWait 2, Event.netAttempt req, Event.netWait 4,
        Event.netAttempt req, Event.netWait 6]) ∧
    ((make_request net req).2.countP Event.isNetAttempt) = 3 := by
  obtain ⟨r0, hn0, hs0⟩ := h 0 (by decide)
  obtain ⟨r1, hn1, hs1⟩ := h 1 (by decide)
  obtain ⟨r2, hn2, hs2⟩ := h 2 (by decide)
  have hmr : make_request net req =
      (none,
       [Event.netAttempt req, Event.netWait 2, Event.netAttempt req, Event.netWait 4,
        Event.netAttempt req, Event.netWait 6]) := by
    show makeRequestFrom net req 0 Config.MAX_RETRIES = _
    rw [show Config.MAX_RETRIES = 2 + 1 from rfl]
    rw [makeRequestFrom, hn0]
    rw [show (2 : Nat) = 1 + 1 from rfl]
    rw [makeRequestFrom, hn1]
    rw [show (1 : Nat) = 0 + 1 from rfl]
    rw [makeRequestFrom, hn2]
    rw [makeRequestFrom]
    simp [hs0, hs1, hs2, Config.WAIT_TIME]
  exact ⟨hmr, by rw [hmr]; rfl⟩

/-- C3 witness: the theorem applied to a concrete all-429 network. -/
theorem C3_rate_limited_three_attempts_witness :
    make_request net429 reqDemo =
      (none,
       [Event.netAttempt reqDemo, Event.netWait 2, Event.netAttempt reqDemo, Event.netWait 4,
        Event.netAttempt reqDemo, Event.netWait 6]) :=
  (C3_rate_limited_three_attempts net429 reqDemo
    (fun _ _ => ⟨⟨429, none⟩, rfl, rfl⟩)).1

/-- C6: if every attempt raises a transport-level fault
(`requests.exceptions.RequestException`: connection error, DNS failure,
timeout), `_make_request` catches each, waits the fixed
`Config.WAIT_TIME` between attempts, performs the fixed maximum of 3
attempts, and then returns `None` — its return type is
`Option Response`, so no exception crosses its boundary. -/
theorem C6_transport_faults_exhaust (net : Nat → Outcome) (req : Request)
    (h : ∀ i, i < Config.MAX_RETRIES → net i = Outcome.exn) :
    make_request net req =
      (none,
       [Event.netAttempt req, Event.netWait 2, Event.netAttempt req, Event.netWait 2,
        Event.netAttempt req]) ∧
    ((make_request net req).2.countP Event.isNetAttempt) = 3 := by
  have hn0 := h 0 (by decide)
  have hn1 := h 1 (by decide)
  have hn2 := h 2 (by decide)
  have hmr : make_request net req =
      (none,
       [Event.netAttempt req, Event.netWait 2, Event.netAttempt req, Event.netWait 2,
        Event.netAttempt req]) := by
    show makeRequestFrom net req 0 Config.MAX_RETRIES = _
    rw [show Config.MAX_RETRIES = 2 + 1 from rfl]
    rw [makeRequestFrom, hn0]
    rw [show (2 : Nat) = 1 + 1 from rfl]
    rw [makeRequestFrom, hn1]
    rw [show (1 : Nat) = 0 + 1 from rfl]
    rw [makeRequestFrom, hn2]
    rw [makeRequestFrom]
    simp [Config.WAIT_TIME, Config.MAX_RETRIES]
  exact ⟨hmr, by rw [hmr]; rfl⟩

/-- C6 witness: the theorem applied to a concrete all-faulting network. -/
theorem C6_transport_faults_exhaust_witness :
    make_request netFault reqDemo =
      (none,
       [Event.netAttempt reqDemo, Event.netWait 2, Event.netAttempt reqDemo, Event.netWait 2,
        Event.netAttempt reqDemo]) :=
  (C6_transport_faults_exhaust netFault reqDemo (fun _ _ => rfl)).1

/-- C7: if the first attempt yields a response whose status code is not
429 (success or any other error status), `_make_request` returns that
response immediately: exactly one attempt, no retry, no waiting. -/
theorem C7_non429_returned_immediately (net : Nat → Outcome) (req : Request) (r : Response)
    (h0 : net 0 = Outcome.resp r) (h429 : r.status_code ≠ 429) :
    make_request net req = (some r, [Event.netAttempt req]) := by
  show makeRequestFrom net req 0 Config.MAX_RETRIES = _
  rw [show Config.MAX_RETRIES = 2 + 1 from rfl]
  rw [makeRequestFrom, h0]
  simp [h429]

/-- C7 witness: a concrete first-attempt 500 response is returned at
once. -/
theorem C7_non429_returned_immediately_witness :
    make_request (fun _ => Outcome.resp ⟨500, none⟩) reqDemo =
      (some ⟨500, none⟩, [Event.netAttempt reqDemo]) :=
  C7_non429_returned_immediately (fun _ => Outcome.resp ⟨500, none⟩) reqDemo
    ⟨500, none⟩ rfl (by decide)

/-- Outcomes of the impure collaborators for one run. -/
structure Env where
  /-- `NoteAuthenticator.get_cookies(email, password)`: may raise (the
  model keeps the possibility for C8; the source method itself catches
  its own exceptions), or return `None`, or return a cookie dict. -/
  auth : String → String → Except PyExn (Option Cookies)
  /-- `MarkdownProcessor.to_html(markdown_text)`: the library renderer
  may raise anything except `ImportError` (only `ImportError` is caught
  inside `to_html`), otherwise yields the HTML text. -/
  render : String → Except PyExn String
  /-- Outcome of `self.session.request` for a given request on a given
  attempt number. -/
  net : Request → Nat → Outcome
  /-- `Path(image_path).exists()` -/
  fileExists : String → Bool
  /-- `Path(image_path).stat().st_size` -/
  fileSize : String → Nat
  /-- whether `open(image_path, 'rb')` raises `IOError` -/
  openFails : String → Bool

/-- The draft-creation request: `POST {NOTE_API_BASE}/text_notes`. -/
def createReq : Request :=
  ⟨"POST", Config.NOTE_API_BASE ++ "/text_notes"⟩

/-- The image-upload request: `POST {NOTE_API_BASE}/upload_image`. -/
def uploadReq : Request :=
  ⟨"POST", Config.NOTE_API_BASE ++ "/upload_image"⟩

/-- The finalization request:
`PUT {NOTE_API_BASE}/text_notes/{article_id}`. -/
def updateReq (article_id : Json) : Request :=
  ⟨"PUT", Config.NOTE_API_BASE ++ "/text_notes/" ++ article_id.pyStr⟩

/-- The `try:` block of `create_article`'s response handling:
`result = response.json(); article_id = result['data']['id'];
article_key = result['data']['key']`. -/
def parseIdKey (response : Response) : Except PyExn (Json × Json) := do
  let result ← response.jsonE
  let d ← result.index "data"
  let article_id ← d.index "id"
  let article_key ← d.index "key"
  pure (article_id, article_key)

/-- The `try:` block of `upload_image`'s response handling:
`result = response.json(); image_key = result['data']['key'];
image_url = result['data']['url']`. -/
def parseKeyUrl (response : Response) : Except PyExn (Json × Json) := do
  let result ← response.jsonE
  let d ← result.index "data"
  let image_key ← d.index "key"
  let image_url ← d.index "url"
  pure (image_key, image_url)

/-- `NotePoster.create_article(title, markdown_content, cookies)`.
Returns the `(article_id, article_key)` pair — `(None, None)` on every
handled failure — or propagates an uncaught exception; plus the event
trace.  The `except (KeyError, json.JSONDecodeError)` clause catches
exactly those two classes. -/
def create_article (env : Env) (title markdown_content : String) (cookies : Cookies) :
    Except PyExn (Option Json × Option Json) × List Event :=
  if cookies.isEmpty then (Except.ok (none, none), [Event.callCreate])
  else
    match env.render markdown_content with
    | Except.error e => (Except.error e, [Event.callCreate])
    | Except.ok _html =>
      match (make_request (env.net createReq) createReq).1 with
      | none =>
        (Except.ok (none, none), Event.callCreate :: (make_request (env.net createReq) createReq).2)
      | some response =>
        (if response.truthy = false then Except.ok (none, none)
         else if response.status_code = 200 then
           match parseIdKey response with
           | Except.ok (article_id, article_key) =>
             Except.ok (some article_id, some article_key)
           | Except.error PyExn.keyError => Except.ok (none, none)
           | Except.error PyExn.jsonDecodeError => Except.ok (none, none)
           | Except.error e => Except.error e
         else Except.ok (none, none),
         Event.callCreate :: (make_request (env.net createReq) createReq).2)

/-- `NotePoster.upload_image(image_path, cookies)`.  File validation
(existence, 10 MiB ceiling) happens before any network call; `IOError`
from `open` is caught; the response handling mirrors `create_article`
with `data.key` / `data.url`. -/
def upload_image (env : Env) (image_path : String) (cookies : Cookies) :
    Except PyExn (Option Json × Option Json) × List Event :=
  if cookies.isEmpty then (Except.ok (none, none), [Event.callUpload image_path])
  else if env.fileExists image_path = false then
    (Except.ok (none, none), [Event.callUpload image_path])
  else if 10 * 1024 * 1024 < env.fileSize image_path then
    (Except.ok (none, none), [Event.callUpload image_path])
  else if env.openFails image_path then
    (Except.ok (none, none), [Event.callUpload image_path])
  else
    match (make_request (env.net uploadReq) uploadReq).1 with
    | none =>
      (Except.ok (none, none), Event.callUpload image_path :: (make_request (env.net uploadReq) uploadReq).2)
    | some response =>
      (if response.truthy = false then Except.ok (none, none)
       else if response.status_code = 200 then
         match parseKeyUrl response with
         | Except.ok (image_key, image_url) => Except.ok (some image_key, some image_url)
         | Except.error PyExn.keyError => Except.ok (none, none)
         | Except.error PyExn.jsonDecodeError => Except.ok (none, none)
         | Except.error e => Except.error e
       else Except.ok (none, none),
       Event.callUpload image_path :: (make_request (env.net uploadReq) uploadReq).2)

/-- `NotePoster.update_article_draft(article_id, title, markdown_content,
cookies, image_key)`: builds the finalize payload (adding
`eyecatch_image_key` only for a truthy `image_key`), PUTs it, and
reports `True` exactly when the response is present, truthy and has
status code 200. -/
def update_article_draft (env : Env) (article_id : Json) (title markdown_content : String)
    (cookies : Cookies) (image_key : Option Json) :
    Except PyExn Bool × List Event :=
  if cookies.isEmpty then (Except.ok false, [Event.callUpdate])
  else
    match env.render markdown_content with
    | Except.error e => (Except.error e, [Event.callUpdate])
    | Except.ok html =>
      match (make_request (env.net (updateReq article_id)) (updateReq article_id)).1 with
      | none =>
        (Except.ok false,
         Event.callUpdate ::
           Event.payloadFinalize
             ⟨html, title, "draft", if optTruthy image_key then image_key else none⟩ ::
           (make_request (env.net (updateReq article_id)) (updateReq article_id)).2)
      | some response =>
        (if response.truthy = false then Except.ok false
         else if response.status_code = 200 then Except.ok true
         else Except.ok false,
         Event.callUpdate ::
           Event.payloadFinalize
             ⟨html, title, "draft", if optTruthy image_key then image_key else none⟩ ::
           (make_request (env.net (updateReq article_id)) (updateReq article_id)).2)

/-- The body of the `try:` block of `NotePoster.post_to_note`: the
pipeline Auth → Draft Creation → (optional) Image Upload → Finalization.
A raised exception propagates as `Except.error`. -/
def post_to_note_body (env : Env) (email password title markdown_content : String)
    (image_path : Option String) : Except PyExn Bool × List Event :=
  match env.auth email password with
  | Except.error e => (Except.error e, [Event.callAuth])
  | Except.ok none => (Except.ok false, [Event.callAuth])
  | Except.ok (some cookies) =>
    if cookies.isEmpty then (Except.ok false, [Event.callAuth])
    else
      match (create_article env title markdown_content cookies).1 with
      | Except.error e =>
        (Except.error e, Event.callAuth :: (create_article env title markdown_content cookies).2)
      | Except.ok (article_id, _article_key) =>
        match article_id with
        | none =>
          (Except.ok false, Event.callAuth :: (create_article env title markdown_content cookies).2)
        | some aid =>
          if aid.truthy = false then
            (Except.ok false,
             Event.callAuth :: (create_article env title markdown_content cookies).2)
          else
            -- optional image upload; its failure is absorbed
            match image_path with
            | some p =>
              if p ≠ "" then
                match (upload_image env p cookies).1 with
                | Except.error e =>
                  (Except.error e,
                   Event.callAuth :: (create_article env title markdown_content cookies).2 ++
                     (upload_image env p cookies).2)
                | Except.ok (image_key, _image_url) =>
                  ((update_article_draft env aid title markdown_content cookies image_key).1,
                   Event.callAuth :: (create_article env title markdown_content cookies).2 ++
                     (upload_image env p cookies).2 ++
                     (update_article_draft env aid title markdown_content cookies image_key).2)
              else
                ((update_article_draft env aid title markdown_content cookies none).1,
                 Event.callAuth :: (create_article env title markdown_content cookies).2 ++
                   (update_article_draft env aid title markdown_content cookies none).2)
            | none =>
              ((update_article_draft env aid title markdown_content cookies none).1,
               Event.callAuth :: (create_article env title markdown_content cookies).2 ++
                 (update_article_draft env aid title markdown_content cookies none).2)

/-- `NotePoster.post_to_note`: the `try/except Exception` wrapper — any
exception raised inside the pipeline is converted to `False`. -/
def post_to_note (env : Env) (email password title markdown_content : String)
    (image_path : Option String) : Bool × List Event :=
  match (post_to_note_body env email password title markdown_content image_path).1 with
  | Except.ok b => (b, (post_to_note_body env email password title markdown_content image_path).2)
  | Except.error _ =>
    (false, (post_to_note_body env email password title markdown_content image_path).2)

/-- What `update_article_draft` reports about an executor result: `False`
for exhaustion, `False` for a falsy (status ≥ 400) response, `True` for
status 200, `False` otherwise. -/
def updOutcome : Option Response → Bool
  | none => false
  | some response =>
    if response.truthy = false then false
    else if response.status_code = 200 then true else false

/-- Every event emitted by `create_article` is its own invocation marker
or a network event of the draft-creation request. -/
theorem create_article_events (env : Env) (title md : String) (cookies : Cookies) :
    ∀ e ∈ (create_article env title md cookies).2,
      e = Event.callCreate ∨ e = Event.netAttempt createReq ∨ ∃ n, e = Event.netWait n := by
  intro e he
  unfold create_article at he
  cases hc : cookies.isEmpty with
  | true => rw [hc] at he; simp at he; exact Or.inl he
  | false =>
    rw [hc] at he
    cases hr : env.render md with
    | error ex => rw [hr] at he; simp at he; exact Or.inl he
    | ok html =>
      rw [hr] at he
      cases hm : (make_request (env.net createReq) createReq).1 with
      | none =>
        rw [hm] at he
        simp at he
        rcases he with rfl | he
        · exact Or.inl rfl
        · exact Or.inr (makeRequestFrom_events (env.net createReq) createReq _ _ e he)
      | some response =>
        rw [hm] at he
        simp at he
        rcases he with rfl | he
        · exact Or.inl rfl
        · exact Or.inr (makeRequestFrom_events (env.net createReq) createReq _ _ e he)

/-- Every event emitted by `upload_image` is its own invocation marker
or a network event of the upload request. -/
theorem upload_image_events (env : Env) (p : String) (cookies : Cookies) :
    ∀ e ∈ (upload_image env p cookies).2,
      e = Event.callUpload p ∨ e = Event.netAttempt uploadReq ∨ ∃ n, e = Event.netWait n := by
  intro e he
  unfold upload_image at he
  cases hc : cookies.isEmpty with
  | true => rw [hc] at he; simp at he; exact Or.inl he
  | false =>
    rw [hc] at he
    cases hex : env.fileExists p with
    | false => rw [hex] at he; simp at he; exact Or.inl he
    | true =>
      rw [hex] at he
      by_cases hsz : 10 * 1024 * 1024 < env.fileSize p
      · rw [if_pos hsz] at he; simp at he; exact Or.inl he
      · rw [if_neg hsz] at he
        cases hop : env.openFails p with
        | true => rw [hop] at he; simp at he; exact Or.inl he
        | false =>
          rw [hop] at he
          cases hm : (make_request (env.net uploadReq) uploadReq).1 with
          | none =>
            rw [hm] at he
            simp at he
            rcases he with rfl | he
            · exact Or.inl rfl
            · exact Or.inr (makeRequestFrom_events (env.net uploadReq) uploadReq _ _ e he)
          | some response =>
            rw [hm] at he
            simp at he
            rcases he with rfl | he
            · exact Or.inl rfl
            · exact Or.inr (makeRequestFrom_events (env.net uploadReq) uploadReq _ _ e he)

/-- Closed form of `update_article_draft` once the cookie check passes
and the renderer succeeds: the result is `updOutcome` of the executor
result, and the trace records the invocation, the finalize payload
(eyecatch key only for a truthy `image_key`), and the network events. -/
theorem update_article_draft_eq (env : Env) (aid : Json) (title md : String)
    (cookies : Cookies) (ik : Option Json) (html : String)
    (hc : cookies.isEmpty = false) (hr : env.render md = Except.ok html) :
    update_article_draft env aid title md cookies ik =
      (Except.ok (updOutcome (make_request (env.net (updateReq aid)) (updateReq aid)).1),
       Event.callUpdate ::
         Event.payloadFinalize ⟨html, title, "draft", if optTruthy ik then ik else none⟩ ::
         (make_request (env.net (updateReq aid)) (updateReq aid)).2) := by
  unfold update_article_draft
  rw [hc, hr]
  cases hm : (make_request (env.net (updateReq aid)) (updateReq aid)).1 with
  | none => simp [updOutcome]
  | some response =>
    simp [updOutcome]
    by_cases ht : response.truthy
    · by_cases h200 : response.status_code = 200 <;> simp [ht, h200]
    · simp [ht]

/-- A well-formed success body: `{"data": {"id": ..., "key": ..., "url": ...}}`. -/
def okJson : Json :=
  Json.jobj
    [("data",
      Json.jobj [("id", Json.jstr "a1"), ("key", Json.jstr "k1"), ("url", Json.jstr "u1")])]

/-- A demonstration cookie dict. -/
def cookiesDemo : Cookies := [("note_session", "v")]

/-- A fully healthy environment. -/
def envOk : Env where
  auth := fun _ _ => Except.ok (some cookiesDemo)
  render := fun s => Except.ok s
  net := fun _ _ => Outcome.resp ⟨200, some okJson⟩
  fileExists := fun _ => true
  fileSize := fun _ => 1000
  openFails := fun _ => false

/-- Environment whose authenticator fails (returns `None`). -/
def envAuthNone : Env := { envOk with auth := fun _ _ => Except.ok none }

/-- Environment whose authenticator returns an empty cookie dict. -/
def envEmptyCookies : Env := { envOk with auth := fun _ _ => Except.ok (some []) }

/-- Environment whose authenticator raises. -/
def envAuthThrows : Env :=
  { envOk with auth := fun _ _ => Except.error (PyExn.otherError "driver crash") }

/-- Environment whose image file is 11 MiB (over the 10 MiB ceiling). -/
def envBigImage : Env := { envOk with fileSize := fun _ => 11 * 1024 * 1024 }

/-- Environment whose remote answers 500 to everything. -/
def env500 : Env := { envOk with net := fun _ _ => Outcome.resp ⟨500, none⟩ }

/-- Environment whose remote answers 201 (a 2xx status) to everything. -/
def env201 : Env := { envOk with net := fun _ _ => Outcome.resp ⟨201, some okJson⟩ }

/-- C2: if credential acquisition fails (`get_cookies` returns `None`),
`post_to_note` returns `False` immediately, issues no draft-creation
call and no network request at all: the trace is just the auth
invocation, with zero `create_article` calls and zero network attempts. -/
theorem C2_auth_failure_no_network (env : Env) (email password title md : String)
    (image_path : Option String)
    (hauth : env.auth email password = Except.ok none) :
    post_to_note env email password title md image_path = (false, [Event.callAuth]) ∧
    ((post_to_note env email password title md image_path).2.countP Event.isCallCreate) = 0 ∧
    ((post_to_note env email password title md image_path).2.countP Event.isNetAttempt) = 0 := by
  have hbody : post_to_note_body env email password title md image_path =
      (Except.ok false, [Event.callAuth]) := by
    unfold post_to_note_body; rw [hauth]
  have hpost : post_to_note env email password title md image_path =
      (false, [Event.callAuth]) := by
    unfold post_to_note; rw [hbody]
  exact ⟨hpost, by rw [hpost]; rfl, by rw [hpost]; rfl⟩

/-- C2 witness: concrete run with a failing authenticator. -/
theorem C2_auth_failure_no_network_witness :
    post_to_note envAuthNone "e" "p" "T" "B" none = (false, [Event.callAuth]) :=
  (C2_auth_failure_no_network envAuthNone "e" "p" "T" "B" none rfl).1

/-- C10: an empty credential bundle is indistinguishable from
authentication failure: when `get_cookies` returns an empty dict the
pipeline returns `False` having performed only the auth invocation (no
network call), and each posting operation given an empty cookie dict
immediately returns its failure value with no network event in its
trace. -/
theorem C10_empty_cookies_fail (env : Env) (email password title md : String)
    (image_path : Option String) (p : String) (aid : Json) (ik : Option Json)
    (hauth : env.auth email password = Except.ok (some [])) :
    post_to_note env email password title md image_path = (false, [Event.callAuth]) ∧
    create_article env title md [] = (Except.ok (none, none), [Event.callCreate]) ∧
    upload_image env p [] = (Except.ok (none, none), [Event.callUpload p]) ∧
    update_article_draft env aid title md [] ik = (Except.ok false, [Event.callUpdate]) := by
  refine ⟨?_, rfl, rfl, rfl⟩
  have hbody : post_to_note_body env email password title md image_path =
      (Except.ok false, [Event.callAuth]) := by
    unfold post_to_note_body; rw [hauth]; rfl
  unfold post_to_note; rw [hbody]

/-- C10 witness: concrete run with an empty harvested cookie dict. -/
theorem C10_empty_cookies_fail_witness :
    post_to_note envEmptyCookies "e" "p" "T" "B" none = (false, [Event.callAuth]) ∧
    create_article envEmptyCookies "T" "B" [] = (Except.ok (none, none), [Event.callCreate]) :=
  ⟨(C10_empty_cookies_fail envEmptyCookies "e" "p" "T" "B" none "i.png" (Json.jstr "a1")
      none rfl).1,
   (C10_empty_cookies_fail envEmptyCookies "e" "p" "T" "B" none "i.png" (Json.jstr "a1")
      none rfl).2.1⟩

/-- C4: whenever the draft-creation stage ends in failure — executor
exhaustion (`None`), a non-2xx status, or a 200 body that is malformed
JSON or is missing `data.id`/`data.key` — `create_article` returns
`(None, None)`, `post_to_note` returns overall failure, and neither
`upload_image` nor `update_article_draft` is ever invoked. -/
theorem C4_draft_failure_aborts (env : Env) (email password title md : String)
    (image_path : Option String) (cookies : Cookies) (html : String)
    (hauth : env.auth email password = Except.ok (some cookies))
    (hc : cookies.isEmpty = false)
    (hr : env.render md = Except.ok html)
    (hfail : (make_request (env.net createReq) createReq).1 = none ∨
      ∃ response, (make_request (env.net createReq) createReq).1 = some response ∧
        (¬(200 ≤ response.status_code ∧ response.status_code < 300) ∨
          parseIdKey response = Except.error PyExn.keyError ∨
          parseIdKey response = Except.error PyExn.jsonDecodeError)) :
    (create_article env title md cookies).1 = Except.ok (none, none) ∧
    (post_to_note env email password title md image_path).1 = false ∧
    ∀ e ∈ (post_to_note env email password title md image_path).2,
      e.isCallUpload = false ∧ e.isCallUpdate = false := by
  have hc' : ¬(cookies.isEmpty = true) := by rw [hc]; exact Bool.false_ne_true
  have hcr : (create_article env title md cookies).1 = Except.ok (none, none) := by
    unfold create_article
    rw [hc, hr]
    dsimp only
    rcases hfail with hm | ⟨response, hm, hcond⟩
    · rw [hm]; rfl
    · rw [hm]
      dsimp only
      by_cases h400 : response.status_code < 400
      · have htr : response.truthy = true := by
          simp [Response.truthy, h400]
        by_cases h200 : response.status_code = 200
        · rcases hcond with h2xx | hparse | hparse
          · exact absurd ⟨by omega, by omega⟩ h2xx
          · simp [htr, h200, hparse]
          · simp [htr, h200, hparse]
        · simp [htr, h200]
      · have htr : response.truthy = false := by
          simp [Response.truthy, h400]
        simp [htr]
  have hbody : post_to_note_body env email password title md image_path =
      (Except.ok false, Event.callAuth :: (create_article env title md cookies).2) := by
    unfold post_to_note_body
    rw [hauth]
    dsimp only
    rw [if_neg hc', hcr]
  have hpost : post_to_note env email password title md image_path =
      (false, Event.callAuth :: (create_article env title md cookies).2) := by
    unfold post_to_note; rw [hbody]
  refine ⟨hcr, by rw [hpost], ?_⟩
  intro e he
  rw [hpost] at he
  simp only [List.mem_cons] at he
  rcases he with rfl | he
  · exact ⟨rfl, rfl⟩
  rcases create_article_events env title md cookies e he with rfl | rfl | ⟨n, rfl⟩
  · exact ⟨rfl, rfl⟩
  · exact ⟨rfl, rfl⟩
  · exact ⟨rfl, rfl⟩

/-- C4 witness: a concrete run whose draft creation gets HTTP 500. -/
theorem C4_draft_failure_aborts_witness :
    (create_article env500 "T" "B" cookiesDemo).1 = Except.ok (none, none) ∧
    (post_to_note env500 "e" "p" "T" "B" none).1 = false :=
  ⟨(C4_draft_failure_aborts env500 "e" "p" "T" "B" none cookiesDemo "B" rfl rfl rfl
      (Or.inr ⟨⟨500, none⟩, rfl, Or.inl (by decide)⟩)).1,
   (C4_draft_failure_aborts env500 "e" "p" "T" "B" none cookiesDemo "B" rfl rfl rfl
      (Or.inr ⟨⟨500, none⟩, rfl, Or.inl (by decide)⟩)).2.1⟩

/-- C1: if draft creation returned a valid (truthy) `article_id`, an
image path was supplied, and the image upload step fails — i.e.
`upload_image` returns `(None, None)`: missing file, file over the
10 MiB ceiling, non-success status, or executor exhaustion —
`post_to_note` still invokes `update_article_draft`, every finalize
payload in the run's trace carries no `eyecatch_image_key`, and the
overall run result is exactly the finalization outcome (not a failure
caused by the image). -/
theorem C1_image_failure_degrades (env : Env) (email password title md p : String)
    (cookies : Cookies) (aid : Json) (akey : Option Json) (html : String)
    (hauth : env.auth email password = Except.ok (some cookies))
    (hc : cookies.isEmpty = false)
    (hp : p ≠ "")
    (hcr : (create_article env title md cookies).1 = Except.ok (some aid, akey))
    (haid : aid.truthy = true)
    (hup : (upload_image env p cookies).1 = Except.ok (none, none))
    (hr : env.render md = Except.ok html) :
    Event.callUpdate ∈ (post_to_note env email password title md (some p)).2 ∧
    Event.payloadFinalize ⟨html, title, "draft", none⟩ ∈
      (post_to_note env email password title md (some p)).2 ∧
    (∀ pl, Event.payloadFinalize pl ∈ (post_to_note env email password title md (some p)).2 →
      pl.eyecatch_image_key = none) ∧
    (post_to_note env email password title md (some p)).1 =
      updOutcome (make_request (env.net (updateReq aid)) (updateReq aid)).1 := by
  have hc' : ¬(cookies.isEmpty = true) := by rw [hc]; exact Bool.false_ne_true
  have haid' : ¬(aid.truthy = false) := by rw [haid]; simp
  have hupd := update_article_draft_eq env aid title md cookies none html hc hr
  have hbody : post_to_note_body env email password title md (some p) =
      (Except.ok (updOutcome (make_request (env.net (updateReq aid)) (updateReq aid)).1),
       Event.callAuth :: (create_article env title md cookies).2 ++
         (upload_image env p cookies).2 ++
         (Event.callUpdate ::
           Event.payloadFinalize ⟨html, title, "draft", none⟩ ::
           (make_request (env.net (updateReq aid)) (updateReq aid)).2)) := by
    unfold post_to_note_body
    rw [hauth]
    dsimp only
    rw [if_neg hc', hcr]
    dsimp only
    rw [if_neg haid']
    rw [if_pos hp]
    rw [hup]
    dsimp only
    rw [hupd]
    rfl
  have hpost : post_to_note env email password title md (some p) =
      (updOutcome (make_request (env.net (updateReq aid)) (updateReq aid)).1,
       Event.callAuth :: (create_article env title md cookies).2 ++
         (upload_image env p cookies).2 ++
         (Event.callUpdate ::
           Event.payloadFinalize ⟨html, title, "draft", none⟩ ::
           (make_request (env.net (updateReq aid)) (updateReq aid)).2)) := by
    unfold post_to_note; rw [hbody]
  refine ⟨?_, ?_, ?_, ?_⟩
  · rw [hpost]; simp
  · rw [hpost]; simp
  · intro pl hpl
    rw [hpost] at hpl
    simp only [List.cons_append, List.append_assoc, List.mem_cons, List.mem_append] at hpl
    rcases hpl with h | h
    · exact absurd h (by simp)
    rcases h with h | h
    · rcases create_article_events env title md cookies _ h with h' | h' | ⟨n, h'⟩ <;>
        simp at h'
    rcases h with h | h
    · rcases upload_image_events env p cookies _ h with h' | h' | ⟨n, h'⟩ <;> simp at h'
    rcases h with h | h
    · exact absurd h (by simp)
    rcases h with h | h
    · injection h with h2
      rw [h2]
    · rcases makeRequestFrom_events (env.net (updateReq aid)) (updateReq aid) _ _ _ h with
        h' | ⟨n, h'⟩ <;> simp at h'
  · rw [hpost]

/-- C1 witness: a concrete run whose image is 11 MiB; the upload is
rejected locally, finalization still happens without an eyecatch key,
and the run result is the finalization outcome. -/
theorem C1_image_failure_degrades_witness :
    Event.callUpdate ∈ (post_to_note envBigImage "e" "p" "T" "B" (some "img.png")).2 ∧
    Event.payloadFinalize ⟨"B", "T", "draft", none⟩ ∈
      (post_to_note envBigImage "e" "p" "T" "B" (some "img.png")).2 ∧
    (post_to_note envBigImage "e" "p" "T" "B" (some "img.png")).1 =
      updOutcome
        (make_request (envBigImage.net (updateReq (Json.jstr "a1")))
          (updateReq (Json.jstr "a1"))).1 := by
  have h := C1_image_failure_degrades envBigImage "e" "p" "T" "B" "img.png" cookiesDemo
    (Json.jstr "a1") (some (Json.jstr "k1")) "B" rfl rfl (by decide) rfl rfl rfl rfl
  exact ⟨h.1, h.2.1, h.2.2.2⟩

/-- C5 counterexample: HTTP 201 is a 2xx status and the executor
returns the 201 response on the first attempt, yet
`update_article_draft` reports failure (`False`) — so "success iff any
2xx" is false on the code; the code tests `status_code == 200`. -/
theorem C5_counterexample_201 :
    (make_request (env201.net (updateReq (Json.jstr "a1"))) (updateReq (Json.jstr "a1"))).1 =
      some ⟨201, some okJson⟩ ∧
    (200 ≤ 201 ∧ 201 < 300) ∧
    (update_article_draft env201 (Json.jstr "a1") "T" "B" cookiesDemo none).1 =
      Except.ok false :=
  ⟨rfl, by decide, rfl⟩

/-- C5 (amended): for every finalization call where the executor
returns a response, `update_article_draft` reports success (`True`) if
and only if the response status code is exactly 200. -/
theorem C5_success_iff_status_200 (env : Env) (aid : Json) (title md : String)
    (cookies : Cookies) (ik : Option Json) (html : String) (response : Response)
    (hc : cookies.isEmpty = false) (hr : env.render md = Except.ok html)
    (hresp : (make_request (env.net (updateReq aid)) (updateReq aid)).1 = some response) :
    (update_article_draft env aid title md cookies ik).1 = Except.ok true ↔
      response.status_code = 200 := by
  rw [update_article_draft_eq env aid title md cookies ik html hc hr]
  dsimp only
  rw [hresp]
  by_cases h200 : response.status_code = 200
  · have htr : response.truthy = true := by
      simp [Response.truthy, h200]
    simp [updOutcome, htr, h200]
  · by_cases h400 : response.status_code < 400
    · have htr : response.truthy = true := by simp [Response.truthy, h400]
      simp [updOutcome, htr, h200]
    · have htr : response.truthy = false := by simp [Response.truthy, h400]
      simp [updOutcome, htr, h200]

/-- C5 witness: with a 200 response the amended criterion yields
success. -/
theorem C5_success_iff_status_200_witness :
    (update_article_draft envOk (Json.jstr "a1") "T" "B" cookiesDemo none).1 =
      Except.ok true :=
  (C5_success_iff_status_200 envOk (Json.jstr "a1") "T" "B" cookiesDemo none "B"
    ⟨200, some okJson⟩ rfl rfl rfl).mpr rfl

/-- C8: the pipeline's public operation converts every fault into a
boolean: whenever the pipeline body raises — in particular when the
authenticator raises, or when the renderer raises inside draft creation
— `post_to_note` returns `False`; and in every environment whatsoever
its result is one of the two booleans. -/
theorem C8_no_exception_escapes (env : Env) (email password title md : String)
    (image_path : Option String) :
    (∀ ex, (post_to_note_body env email password title md image_path).1 = Except.error ex →
      (post_to_note env email password title md image_path).1 = false) ∧
    (∀ ex, env.auth email password = Except.error ex →
      (post_to_note env email password title md image_path).1 = false) ∧
    (∀ ex cookies, env.auth email password = Except.ok (some cookies) →
      cookies.isEmpty = false → env.render md = Except.error ex →
      (post_to_note env email password title md image_path).1 = false) ∧
    ((post_to_note env email password title md image_path).1 = false ∨
      (post_to_note env email password title md image_path).1 = true) := by
  have hcatch : ∀ ex, (post_to_note_body env email password title md image_path).1 =
      Except.error ex →
      (post_to_note env email password title md image_path).1 = false := by
    intro ex hex
    unfold post_to_note
    rw [hex]
  refine ⟨hcatch, ?_, ?_, ?_⟩
  · intro ex hauth
    apply hcatch ex
    unfold post_to_note_body
    rw [hauth]
  · intro ex cookies hauth hc hrender
    have hc' : ¬(cookies.isEmpty = true) := by rw [hc]; exact Bool.false_ne_true
    have hcr : (create_article env title md cookies).1 = Except.error ex := by
      unfold create_article
      rw [hc, hrender]
      rfl
    apply hcatch ex
    unfold post_to_note_body
    rw [hauth]
    dsimp only
    rw [if_neg hc', hcr]
  · cases hres : (post_to_note env email password title md image_path).1
    · exact Or.inl rfl
    · exact Or.inr rfl

/-- C8 witness: a raising authenticator is converted to `False`. -/
theorem C8_no_exception_escapes_witness :
    (post_to_note envAuthThrows "e" "p" "T" "B" none).1 = false :=
  (C8_no_exception_escapes envAuthThrows "e" "p" "T" "B" none).2.1
    (PyExn.otherError "driver crash") rfl

namespace MarkdownProcessor

/-!
Embedding of `MarkdownProcessor._simple_markdown_to_html` (the fallback
renderer used when the `markdown` library is absent).  The Python
function is a fixed sequence of `re.sub` passes followed by paragraph
wrapping; each `re.sub` is embedded as a leftmost scan (`subAll`) with a
matcher implementing that regex's — entirely backtracking-free —
matching on this pattern shape.  `\w` is taken in its ASCII reading.
-/

/-- Character lists; Python operates on strings, embedded here as lists
of characters for structural recursion. -/
abbrev Chars := List Char

/-- `\w` (ASCII): letters, digits, underscore. -/
def isWordChar (c : Char) : Bool := c.isAlphanum || c = '_'

/-- Split at the first occurrence of `pat`: returns the part before it
and the part after it (Python `s.find(pat)` / leftmost regex match of a
literal). -/
def findSub (pat : Chars) : Chars → Option (Chars × Chars)
  | [] => if pat.isEmpty then some ([], []) else none
  | c :: rest =>
    if pat.isPrefixOf (c :: rest) then some ([], (c :: rest).drop pat.length)
    else
      match findSub pat rest with
      | some (pre, post) => some (c :: pre, post)
      | none => none

/-- Python `pat in s`. -/
def containsSub (s pat : Chars) : Bool := (findSub pat s).isSome

/-- Global leftmost substitution driver (`re.sub` semantics for
patterns that always consume at least one character): at each position
try the matcher; on a match emit its replacement and continue after the
consumed text — the replacement itself is not rescanned.  `fuel` is the
input length. -/
def subAll (m : Chars → Option (Chars × Chars)) : Nat → Chars → Chars
  | _, [] => []
  | 0, s => s
  | fuel + 1, c :: rest =>
    match m (c :: rest) with
    | some (repl, remaining) => repl ++ subAll m fuel remaining
    | none => c :: subAll m fuel rest

/-- Matcher for ``` ```(\w+)?\n(.*?)\n``` ``` with `re.DOTALL`,
replacement `<pre><code>\2</code></pre>`: three backticks, a maximal
(possibly empty) word-character run, a newline, then the shortest body
up to the first `\n`-plus-three-backticks. -/
def fencedMatch : Chars → Option (Chars × Chars)
  | '`' :: '`' :: '`' :: s1 =>
    match s1.dropWhile isWordChar with
    | '\n' :: s3 =>
      match findSub ['\n', '`', '`', '`'] s3 with
      | some (body, rest) =>
        some ("<pre><code>".toList ++ body ++ "</code></pre>".toList, rest)
      | none => none
    | _ => none
  | _ => none

/-- Matcher for ``` `([^`]+)` ```, replacement `<code>\1</code>`. -/
def inlineCodeMatch : Chars → Option (Chars × Chars)
  | '`' :: s1 =>
    match s1.dropWhile (fun c => c ≠ '`') with
    | '`' :: rest2 =>
      if (s1.takeWhile (fun c => c ≠ '`')).isEmpty then none
      else some ("<code>".toList ++ s1.takeWhile (fun c => c ≠ '`') ++ "</code>".toList, rest2)
    | _ => none
  | _ => none

/-- Split into lines at each `\n` (preserving empty lines), the way the
`re.MULTILINE` anchors `^`/`$` carve up the string. -/
def splitLines : Chars → List Chars
  | [] => [[]]
  | '\n' :: rest => [] :: splitLines rest
  | c :: rest =>
    match splitLines rest with
    | [] => [[c]]
    | l :: ls => (c :: l) :: ls

/-- Apply a whole-line transform to every line (`re.sub` with
`re.MULTILINE` for a `^…(.+)$` pattern). -/
def mapLines (f : Chars → Chars) (s : Chars) : Chars :=
  List.intercalate ['\n'] ((splitLines s).map f)

/-- One `^marker(.+)$` line rule (headings `### ` / `## ` / `# ` and
list items `- `): if the line starts with the marker and something
nonempty follows, wrap that remainder in the tag pair. -/
def headingLine (marker tagOpen tagClose : Chars) (line : Chars) : Chars :=
  if marker.isPrefixOf line then
    if (line.drop marker.length).isEmpty then line
    else tagOpen ++ line.drop marker.length ++ tagClose
  else line

/-- Shortest nonempty run of non-newline characters followed by `pat`
(the `(.+?)` of the emphasis patterns, without `re.DOTALL`). -/
def findBody (pat : Chars) : Chars → Option (Chars × Chars)
  | [] => none
  | c :: rest =>
    if c = '\n' then none
    else if pat.isPrefixOf rest then some ([c], rest.drop pat.length)
    else
      match findBody pat rest with
      | some (body, r) => some (c :: body, r)
      | none => none

/-- Matcher for `\*\*(.+?)\*\*`, replacement `<strong>\1</strong>`. -/
def boldMatch : Chars → Option (Chars × Chars)
  | '*' :: '*' :: s1 =>
    match findBody ['*', '*'] s1 with
    | some (body, rest) => some ("<strong>".toList ++ body ++ "</strong>".toList, rest)
    | none => none
  | _ => none

/-- Matcher for `\*(.+?)\*`, replacement `<em>\1</em>`. -/
def italicMatch : Chars → Option (Chars × Chars)
  | '*' :: s1 =>
    match findBody ['*'] s1 with
    | some (body, rest) => some ("<em>".toList ++ body ++ "</em>".toList, rest)
    | none => none
  | _ => none

/-- Matcher for `\[([^\]]+)\]\(([^)]+)\)`, replacement
`<a href="\2">\1</a>`. -/
def linkMatch : Chars → Option (Chars × Chars)
  | '[' :: s1 =>
    match s1.dropWhile (fun c => c ≠ ']') with
    | ']' :: '(' :: s2 =>
      if (s1.takeWhile (fun c => c ≠ ']')).isEmpty then none
      else
        match s2.dropWhile (fun c => c ≠ ')') with
        | ')' :: rest3 =>
          if (s2.takeWhile (fun c => c ≠ ')')).isEmpty then none
          else
            some ("<a href=\"".toList ++ s2.takeWhile (fun c => c ≠ ')') ++ "\">".toList ++
              s1.takeWhile (fun c => c ≠ ']') ++ "</a>".toList, rest3)
        | _ => none
    | _ => none
  | _ => none

/-- Python `str.strip()` whitespace set (ASCII). -/
def isPySpace (c : Char) : Bool :=
  c = ' ' || c = '\t' || c = '\n' || c = '\r' || c = '\x0b' || c = '\x0c'

/-- Python `str.strip()`. -/
def pstrip (s : Chars) : Chars :=
  ((s.dropWhile isPySpace).reverse.dropWhile isPySpace).reverse

/-- Python `str.split(sep)` for a nonempty separator: non-overlapping,
left to right.  `fuel` is the input length. -/
def splitOnSeq (sep : Chars) : Nat → Chars → List Chars
  | 0, s => [s]
  | fuel + 1, s =>
    match findSub sep s with
    | none => [s]
    | some (pre, post) => pre :: splitOnSeq sep fuel post

/-- The paragraph wrapping loop: split on blank lines, strip each
block, wrap non-tag blocks in `<p>…</p>`, drop empty blocks, join with
single newlines. -/
def paragraphPass (html : Chars) : Chars :=
  List.intercalate ['\n']
    (((splitOnSeq ['\n', '\n'] html.length html).map pstrip).filterMap (fun para =>
      if para.isEmpty then none
      else if para.head? = some '<' then some para
      else some ("<p>".toList ++ para ++ "</p>".toList)))

/-- `MarkdownProcessor._simple_markdown_to_html` (the leading
underscore is dropped for Lean): code blocks, inline code, `h3`, `h2`,
`h1`, list items, bold, italic, links, then paragraph wrapping — in the
source's order. -/
def simple_markdown_to_html (text : String) : String :=
  let html0 := text.toList
  let html1 := subAll fencedMatch html0.length html0
  let html2 := subAll inlineCodeMatch html1.length html1
  let html3 := mapLines (headingLine "### ".toList "<h3>".toList "</h3>".toList) html2
  let html4 := mapLines (headingLine "## ".toList "<h2>".toList "</h2>".toList) html3
  let html5 := mapLines (headingLine "# ".toList "<h1>".toList "</h1>".toList) html4
  let html6 := mapLines (headingLine "- ".toList "<li>".toList "</li>".toList) html5
  let html7 := subAll boldMatch html6.length html6
  let html8 := subAll italicMatch html7.length html7
  let html9 := subAll linkMatch html8.length html8
  (paragraphPass html9).asString

end MarkdownProcessor

/-- C9: the fallback renderer satisfies the spec's sample outputs:
rendering `# T` yields output containing `<h1>T</h1>`, rendering
`**b**` yields output containing `<strong>b</strong>`, and rendering
`[x](http://e)` yields output containing `<a href="http://e">x</a>`. -/
theorem C9_fallback_renderer_samples :
    MarkdownProcessor.containsSub
      (MarkdownProcessor.simple_markdown_to_html "# T").toList "<h1>T</h1>".toList = true ∧
    MarkdownProcessor.containsSub
      (MarkdownProcessor.simple_markdown_to_html "**b**").toList
      "<strong>b</strong>".toList = true ∧
    MarkdownProcessor.containsSub
      (MarkdownProcessor.simple_markdown_to_html "[x](http://e)").toList
      "<a href=\"http://e\">x</a>".toList = true := by
  refine ⟨?_, ?_, ?_⟩ <;> rfl

end NotePoster
